import Mathlib

/-!
# Arco personalization core — shallow embedding and verification

This file embeds the persona-classification and content-assembly core of the
Arco repository in Lean 4 and proves properties of it.

Embedded source files:
* `blocks/quiz/quiz.js` (the current 6-persona quiz block): `PERSONAS`,
  `SCORING`, `calculatePersona`, `RESULT_PAGES`, `setCookie` and the
  quiz-completion branch of `decorate`.
* `blocks/quiz/quiz-logic.js`: `calculatePersona` (identical to the quiz
  block's copy, embedded once), `getResultPage`, `getPersonaFromCookie`.
* `personalization/assembly-engine.js`: the variant tables
  (`HERO_VARIANTS`, `PRODUCT_RECS`, `BLOG_FEEDS`, `EXPERIENCE_CTAS`, the
  `overrides` table of `getNavigationOverride`), the five getters, and
  `composePage`.

Modelling conventions:
* JavaScript values are modelled by the inductive type `JVal`; objects are
  association lists of string keys (`Obj`).  JavaScript objects cannot carry
  duplicate own keys, so lemmas that need it assume `Nodup` on the key list.
  Prototype-inherited properties (e.g. `obj["toString"]`) are not modelled:
  an object literal is exactly its own string-keyed fields.
* Ambient state is passed explicitly: the `arco_persona` cookie read by
  `getPersonaFromCookie` becomes the `store` argument of `composePage`, the
  current time becomes the `now` argument, and `document.cookie` writes
  become the returned list of `(name, value, days)` triples.
* A nullable JS string (`null`/`undefined` vs a string) is `Option String`;
  coercion of `null` to the property key `"null"` is `jsKey`.  JS truthiness
  of such a value (`null`, `undefined` and `""` are falsy) is `truthyS`.
* Machine numbers in the embedded code are small integers (answer indices,
  list limits); they are modelled as `Int`/`Nat` — no overflow is reachable.
-/

/-- Model of a JavaScript runtime value (the fragment used by this code:
`null`, booleans, integers, strings, arrays, plain objects). -/
inductive JVal where
  | null : JVal
  | bool (b : Bool) : JVal
  | num (n : Int) : JVal
  | str (s : String) : JVal
  | arr (elems : List JVal) : JVal
  | obj (fields : List (String × JVal)) : JVal
deriving Repr

/-- A JavaScript object: an ordered association list of own string keys. -/
abbrev Obj := List (String × JVal)

/-- First-match association-list lookup: JS property read `o[key]`
(`none` models `undefined`). -/
def assocGet {α : Type} : List (String × α) → String → Option α
  | [], _ => none
  | (k, v) :: rest, key => if k = key then some v else assocGet rest key

/-- JS property write `o[key] = v`: replaces the value of an existing key in
place (key order is preserved), otherwise appends the new key. -/
def oSet : Obj → String → JVal → Obj
  | [], key, v => [(key, v)]
  | (k, w) :: rest, key, v =>
      if k = key then (k, v) :: rest else (k, w) :: oSet rest key v

/-- Source `Object.assign(target, src)`: writes each own field of `src` onto
`target`, in order. -/
def oAssign : Obj → Obj → Obj
  | target, [] => target
  | target, (k, v) :: rest => oAssign (oSet target k v) rest

/-- JS truthiness of a nullable string: `null`/`undefined` and `""` are
falsy, every other string is truthy. -/
def truthyS : Option String → Bool
  | none => false
  | some s => !(s == "")

/-- JS `a || b` on nullable strings. -/
def jsOr (a b : Option String) : Option String :=
  if truthyS a then a else b

/-- JS `v || d` on a nullable string with a string default
(used for `slugMap[tag] || fallback`). -/
def jsOrStr (v : Option String) (d : String) : String :=
  match v with
  | some s => if s = "" then d else s
  | none => d

/-- Coercion of a nullable string to a JS property key: `o[null]` reads the
key `"null"`. -/
def jsKey : Option String → String
  | none => "null"
  | some s => s

/-- JS truthiness of a general value (`NaN` is not representable here;
objects and arrays are always truthy). -/
def truthyJ : JVal → Bool
  | JVal.null => false
  | JVal.bool b => b
  | JVal.num n => !(n == 0)
  | JVal.str s => !(s == "")
  | JVal.arr _ => true
  | JVal.obj _ => true

/-- Property read on a general value: only object fields are modelled
(array/string numeric-index reads are not used by any embedded call site). -/
def jvIndex : JVal → String → Option JVal
  | JVal.obj o, k => assocGet o k
  | _, _ => none

/-- The own string-keyed fields a value contributes as an `Object.assign`
source.  Primitive sources contribute none; array/string index keys are not
used by any embedded call site. -/
def objFields : JVal → Obj
  | JVal.obj o => o
  | _ => []

/-! ## PersonaClassifier — `calculatePersona` (quiz.js / quiz-logic.js)

The quiz block and `quiz-logic.js` contain byte-identical copies of
`PERSONAS`, `SCORING` and `calculatePersona`; they are embedded once. -/

/-- The closed 6-value persona taxonomy, in declared (tie-break) order. -/
def PERSONAS : List String :=
  [ "morning-minimalist"
  , "upgrader"
  , "craft-barista"
  , "traveller"
  , "non-barista"
  , "office-manager" ]

/-- Scoring matrix `SCORING[question][option][personaIndex] = points`.
Persona order: morning-minimalist(0), upgrader(1), craft-barista(2),
traveller(3), non-barista(4), office-manager(5). -/
def SCORING : List (List (List Nat)) :=
  [ -- Q1: "When do you usually have your first coffee?"
    [ [2, 0, 0, 0, 1, 0]   -- Before 7am
    , [1, 1, 0, 0, 0, 0]   -- 7-9am
    , [0, 0, 1, 1, 0, 0]   -- After 9am
    , [0, 0, 0, 0, 2, 0] ] -- "I lose track"
  , -- Q2: "How do you feel about the brewing process?"
    [ [1, 0, 0, 0, 2, 0]   -- "I want it fast"
    , [2, 1, 0, 0, 0, 0]   -- "I enjoy the ritual"
    , [0, 1, 2, 0, 0, 0]   -- "I want to master it"
    , [0, 0, 0, 0, 2, 1] ] -- "I just want it to work"
  , -- Q3: "Where do you mostly brew?"
    [ [1, 1, 0, 0, 0, 0]   -- Home kitchen
    , [1, 0, 0, 0, 1, 0]   -- Home office
    , [0, 0, 0, 3, 0, 0]   -- Travelling
    , [0, 0, 0, 0, 0, 3] ] -- At the office
  , -- Q4: "What is your current setup?" (apostrophe elided)
    [ [1, 0, 0, 0, 1, 0]   -- No machine yet
    , [0, 1, 0, 0, 2, 0]   -- A capsule/pod machine
    , [0, 2, 1, 0, 0, 0]   -- A basic espresso machine
    , [0, 0, 3, 0, 0, 0] ] ] -- A proper espresso setup

/-- Source `optionScoring.forEach((points, i) => { scores[i] += points })`:
element-wise addition of a scoring row into the score vector.  When the row
is shorter the remaining scores are untouched; rows never exceed the 6-slot
score vector. -/
def zipAdd : List Nat → List Nat → List Nat
  | scores, [] => scores
  | [], _ :: _ => []
  | s :: scores, p :: row => (s + p) :: zipAdd scores row

/-- One iteration of the `answers.forEach` loop of `calculatePersona`:
skip answers for unknown questions (`questionIndex < SCORING.length`) and
unanswered sentinels (`answerIndex >= 0`); clamp the answer index with
`Math.min(answerIndex, questionScoring.length - 1)`; add the row. -/
def scoreStep (scores : List Nat) (questionIndex : Nat) (answerIndex : Int) : List Nat :=
  if questionIndex < SCORING.length ∧ 0 ≤ answerIndex then
    zipAdd scores
      ((SCORING.getD questionIndex []).getD
        (min answerIndex (((SCORING.getD questionIndex []).length : Int) - 1)).toNat [])
  else scores

/-- The `answers.forEach((answerIndex, questionIndex) => ...)` loop. -/
def scoresGo : List Int → Nat → List Nat → List Nat
  | [], _, scores => scores
  | a :: rest, q, scores => scoresGo rest (q + 1) (scoreStep scores q a)

/-- The score vector accumulated by `calculatePersona` over an answer
vector, starting from `[0, 0, 0, 0, 0, 0]`. -/
def quizScores (answers : List Int) : List Nat :=
  scoresGo answers 0 [0, 0, 0, 0, 0, 0]

/-- The winner-selection loop of `calculatePersona`:
`maxScore = 0; winnerIndex = 0; scores.forEach((score, index) => { if
(score > maxScore) { maxScore = score; winnerIndex = index } })`.
Returns the final `(maxScore, winnerIndex)`. -/
def winnerFold : List Nat → Nat → Nat → Nat → Nat × Nat
  | [], _, maxScore, winIdx => (maxScore, winIdx)
  | score :: rest, index, maxScore, winIdx =>
      if maxScore < score then winnerFold rest (index + 1) score index
      else winnerFold rest (index + 1) maxScore winIdx

/-- The `winnerIndex` selected from a score vector. -/
def winnerIndex (scores : List Nat) : Nat :=
  (winnerFold scores 0 0 0).2

/-- Source `calculatePersona(answers)`: scores then selects `PERSONAS[winnerIndex]`
(the index is always in range; the `getD` default is never reached). -/
def calculatePersona (answers : List Int) : String :=
  PERSONAS.getD (winnerIndex (quizScores answers)) ""

/-! ## Result-page redirect — `getResultPage` (quiz-logic.js) and
`RESULT_PAGES` (quiz.js) -/

/-- The `slugMap` of `getResultPage`. -/
def slugMap : List (String × String) :=
  [ ("morning-minimalist", "morning-minimalist")
  , ("upgrader", "the-upgrade-path")
  , ("craft-barista", "craft-at-home")
  , ("traveller", "espresso-anywhere")
  , ("non-barista", "the-non-barista")
  , ("office-manager", "the-non-barista") ]

/-- Source `getResultPage(personaTag)`: slug lookup with falsy fallback to
`'morning-minimalist'`, then the template `/experiences/core/${slug}`. -/
def getResultPage (personaTag : Option String) : String :=
  let slug := jsOrStr (assocGet slugMap (jsKey personaTag)) "morning-minimalist"
  "/experiences/core/" ++ slug

/-- Source `RESULT_PAGES` of the quiz block: persona tag to full experience URL. -/
def RESULT_PAGES : List (String × String) :=
  [ ("morning-minimalist", "/experiences/core/morning-minimalist")
  , ("upgrader", "/experiences/core/the-upgrade-path")
  , ("craft-barista", "/experiences/core/craft-at-home")
  , ("traveller", "/experiences/core/espresso-anywhere")
  , ("non-barista", "/experiences/core/the-non-barista")
  , ("office-manager", "/experiences/core/the-non-barista") ]

/-! ## PersonaStore — the quiz-completion branch of `decorate` (quiz.js)

`setCookie(name, value, days)` writes one cookie with the given retention;
the completion branch performs two such writes.  The writes are modelled as
the list of `(name, value, days)` triples in write order. -/

/-- The cookie writes performed by the quiz-completion branch of the quiz
block: `setCookie('arco_persona', persona, 90)` then
`setCookie('arco-brew-style', persona, 30)`, where
`persona = calculatePersona(answers)`. -/
def quizCompletionCookies (answers : List Int) : List (String × String × Nat) :=
  let persona := calculatePersona answers
  [ ("arco_persona", persona, 90)
  , ("arco-brew-style", persona, 30) ]

/-- The redirect URL chosen by the quiz-completion branch:
`RESULT_PAGES[persona] || '/experiences/core/morning-minimalist'`. -/
def quizCompletionRedirect (answers : List Int) : String :=
  jsOrStr (assocGet RESULT_PAGES (calculatePersona answers))
    "/experiences/core/morning-minimalist"

-- sanity checks (spec section 8 examples)
example : calculatePersona [] = "morning-minimalist" := by decide
example : calculatePersona [-1, -1, -1, -1] = "morning-minimalist" := by decide
example : quizScores [0, 0, 0, 0] = [5, 1, 0, 0, 4, 0] := by decide
example : calculatePersona [0, 0, 0, 0] = "morning-minimalist" := by decide
example : quizScores [3, 3, 3, 3] = [0, 0, 3, 0, 4, 4] := by decide
example : calculatePersona [3, 3, 3, 3] = "non-barista" := by decide
example : calculatePersona [1, 2, 2, 2] = "upgrader" := by decide
example : getResultPage (some "office-manager") = "/experiences/core/the-non-barista" := by decide
example : getResultPage none = "/experiences/core/morning-minimalist" := by decide

/-! ## VariantRegistry — static tables of `assembly-engine.js` -/

/-- The `default` entry of `HERO_VARIANTS`. -/
def heroDefault : JVal :=
  JVal.obj
    [ ("headline", JVal.str "Precision Brewing, Beautiful Design")
    , ("subtext", JVal.str "Arco crafts espresso machines and grinders for people who care about every detail — from bean to cup.")
    , ("cta", JVal.obj [("label", JVal.str "Explore Machines"), ("url", JVal.str "/products/espresso-machines")])
    , ("image_alt", JVal.str "Arco espresso machine brewing a perfect shot on a sunlit kitchen counter") ]

/-- Source `HERO_VARIANTS`: hero content variants keyed by persona tag. -/
def HERO_VARIANTS : List (String × JVal) :=
  [ ("default", heroDefault)
  , ("morning-minimalist", JVal.obj
      [ ("headline", JVal.str "One perfect cup. Every morning.")
      , ("subtext", JVal.str "The Arco Primo is built for people who want quality without complexity. Heat up in 90 seconds, pull a beautiful shot, and start your day.")
      , ("cta", JVal.obj [("label", JVal.str "Meet the Primo"), ("url", JVal.str "/products/pdp-canonical/arco-primo")])
      , ("image_alt", JVal.str "A calm kitchen counter at dawn with a single espresso in a white ceramic cup next to the Arco Primo") ])
  , ("upgrader", JVal.obj
      [ ("headline", JVal.str "Ready for the real thing.")
      , ("subtext", JVal.str "You\x27ve outgrown your first machine. The Arco Doppio gives you dual-boiler precision without the learning cliff.")
      , ("cta", JVal.obj [("label", JVal.str "Compare Machines"), ("url", JVal.str "/products/comparison/arco-primo-vs-arco-doppio")])
      , ("image_alt", JVal.str "The Arco Doppio on a modern kitchen counter with a fresh double shot, steam wand in action") ])
  , ("craft-barista", JVal.obj
      [ ("headline", JVal.str "Built for the obsessed.")
      , ("subtext", JVal.str "The Arco Studio Pro puts pressure profiling, PID temperature control, and competition-grade build quality on your counter.")
      , ("cta", JVal.obj [("label", JVal.str "Explore Studio Pro"), ("url", JVal.str "/products/pdp-canonical/arco-studio-pro")])
      , ("image_alt", JVal.str "Close-up of the Arco Studio Pro pressure gauge and portafilter with a perfectly extracted shot flowing") ])
  , ("traveller", JVal.obj
      [ ("headline", JVal.str "Espresso, everywhere.")
      , ("subtext", JVal.str "The Arco Viaggio weighs 340g and pulls genuine espresso from a mountain ledge, a hotel room, or a campervan.")
      , ("cta", JVal.obj [("label", JVal.str "Meet the Viaggio"), ("url", JVal.str "/products/pdp-canonical/arco-viaggio")])
      , ("image_alt", JVal.str "The Arco Viaggio portable espresso maker on a granite rock with mountain peaks in soft focus behind") ])
  , ("non-barista", JVal.obj
      [ ("headline", JVal.str "Great coffee. No barista required.")
      , ("subtext", JVal.str "The Arco Automatico grinds, tamps, and brews with one touch. Specialty-grade espresso without the learning curve.")
      , ("cta", JVal.obj [("label", JVal.str "See the Automatico"), ("url", JVal.str "/products/pdp-canonical/arco-automatico")])
      , ("image_alt", JVal.str "The Arco Automatico with a freshly brewed espresso, simple one-button interface visible") ])
  , ("office-manager", JVal.obj
      [ ("headline", JVal.str "Office coffee that people actually look forward to.")
      , ("subtext", JVal.str "The Arco Ufficio is built for teams — high-volume, easy to maintain, and pays for itself in under six months.")
      , ("cta", JVal.obj [("label", JVal.str "Calculate Savings"), ("url", JVal.str "/tools/calculators/capsule-to-bean-cost-comparison")])
      , ("image_alt", JVal.str "The Arco Ufficio in a bright modern office kitchen with multiple cups ready to serve") ]) ]

/-- The `default` entry of `PRODUCT_RECS`. -/
def productRecsDefault : List String :=
  ["arco-primo", "arco-doppio", "arco-studio", "arco-macinino", "arco-preciso", "arco-zero"]

/-- Source `PRODUCT_RECS`: ordered product recommendations keyed by persona tag. -/
def PRODUCT_RECS : List (String × List String) :=
  [ ("default", productRecsDefault)
  , ("morning-minimalist", ["arco-nano", "arco-primo", "arco-macinino", "arco-filtro", "arco-doppio", "arco-preciso"])
  , ("upgrader", ["arco-doppio", "arco-studio", "arco-preciso", "arco-primo", "arco-macinino", "arco-zero"])
  , ("craft-barista", ["arco-studio-pro", "arco-zero", "arco-studio", "arco-preciso", "arco-filtro", "arco-doppio"])
  , ("traveller", ["arco-viaggio", "arco-nano", "arco-macinino", "arco-primo", "arco-filtro", "arco-doppio"])
  , ("non-barista", ["arco-automatico", "arco-nano", "arco-primo", "arco-macinino", "arco-doppio", "arco-preciso"])
  , ("office-manager", ["arco-ufficio", "arco-doppio", "arco-preciso", "arco-studio", "arco-automatico", "arco-macinino"]) ]

/-- The `default` entry of `BLOG_FEEDS`. -/
def blogFeedsDefault : List String :=
  [ "why-your-grinder-matters-more-than-your-machine"
  , "a-visit-to-our-workshop"
  , "the-architect-who-built-a-coffee-corner" ]

/-- Source `BLOG_FEEDS`: blog feed priorities keyed by persona tag. -/
def BLOG_FEEDS : List (String × List String) :=
  [ ("default", blogFeedsDefault)
  , ("morning-minimalist",
      [ "10-most-common-beginner-mistakes"
      , "how-to-dial-in-espresso-in-under-10-minutes"
      , "how-to-store-beans-properly" ])
  , ("upgrader",
      [ "why-your-grinder-matters-more-than-your-machine"
      , "pre-infusion-what-it-is-and-why-arco-uses-it"
      , "how-to-clean-a-group-head" ])
  , ("craft-barista",
      [ "why-arco-chose-brass-for-the-studio-boiler"
      , "blind-tasting-your-espresso"
      , "calibrating-a-burr-grinder" ])
  , ("traveller",
      [ "the-van-lifer-and-the-viaggio"
      , "espresso-bars-worth-visiting-in-milan"
      , "altitude-and-espresso" ])
  , ("non-barista",
      [ "10-most-common-beginner-mistakes"
      , "descaling-step-by-step"
      , "how-to-store-beans-properly" ])
  , ("office-manager",
      [ "the-startup-office-upgrade"
      , "descaling-step-by-step"
      , "coffee-certifications-explained" ]) ]

/-- The `default` entry of `EXPERIENCE_CTAS`. -/
def experienceCtasDefault : JVal :=
  JVal.obj
    [ ("archetype", JVal.str "Discover Your Style")
    , ("headline", JVal.str "Not sure where to start?")
    , ("body", JVal.str "Take our 30-second quiz and we\x27ll match you with the right setup.")
    , ("cta", JVal.obj [("label", JVal.str "Find Your Brew Style"), ("url", JVal.str "/experiences/core/morning-minimalist")])
    , ("image_alt", JVal.str "A warm kitchen scene with multiple Arco machines arranged from simple to advanced") ]

/-- Source `EXPERIENCE_CTAS`: experience CTA data keyed by persona tag. -/
def EXPERIENCE_CTAS : List (String × JVal) :=
  [ ("default", experienceCtasDefault)
  , ("morning-minimalist", JVal.obj
      [ ("archetype", JVal.str "The Morning Minimalist")
      , ("headline", JVal.str "Your morning, simplified.")
      , ("body", JVal.str "Everything you need for a calm, quality-first start to the day.")
      , ("cta", JVal.obj [("label", JVal.str "See Your Setup"), ("url", JVal.str "/experiences/core/morning-minimalist")])
      , ("image_alt", JVal.str "A calm sunrise kitchen with a single espresso and the Arco Primo") ])
  , ("upgrader", JVal.obj
      [ ("archetype", JVal.str "The Upgrade Path")
      , ("headline", JVal.str "Ready for the next level?")
      , ("body", JVal.str "See what a real upgrade looks like and what it means for your daily cup.")
      , ("cta", JVal.obj [("label", JVal.str "Explore Upgrades"), ("url", JVal.str "/experiences/core/the-upgrade-path")])
      , ("image_alt", JVal.str "Side by side comparison of entry-level and mid-range Arco equipment") ])
  , ("craft-barista", JVal.obj
      [ ("archetype", JVal.str "Craft at Home")
      , ("headline", JVal.str "The home setup you deserve.")
      , ("body", JVal.str "Professional-grade equipment, pro-level technique guides, zero compromises.")
      , ("cta", JVal.obj [("label", JVal.str "Build Your Station"), ("url", JVal.str "/experiences/core/craft-at-home")])
      , ("image_alt", JVal.str "A dedicated coffee corner with the Arco Studio Pro, Zero grinder, and full accessories") ])
  , ("traveller", JVal.obj
      [ ("archetype", JVal.str "Espresso Anywhere")
      , ("headline", JVal.str "Your coffee, wherever you go.")
      , ("body", JVal.str "Compact gear, travel guides, and the freedom to brew anywhere on earth.")
      , ("cta", JVal.obj [("label", JVal.str "Pack Your Kit"), ("url", JVal.str "/experiences/core/espresso-anywhere")])
      , ("image_alt", JVal.str "The Arco Viaggio on a wooden table overlooking a mountain landscape") ])
  , ("non-barista", JVal.obj
      [ ("archetype", JVal.str "The Non-Barista")
      , ("headline", JVal.str "No skills required.")
      , ("body", JVal.str "Specialty-grade coffee with one button press. Welcome to the easy life.")
      , ("cta", JVal.obj [("label", JVal.str "See How Easy It Is"), ("url", JVal.str "/experiences/core/the-non-barista")])
      , ("image_alt", JVal.str "A person pressing a single button on the Arco Automatico with a perfect espresso appearing") ])
  , ("office-manager", JVal.obj
      [ ("archetype", JVal.str "Office Solutions")
      , ("headline", JVal.str "Coffee that runs itself.")
      , ("body", JVal.str "High-volume, low-maintenance equipment that your entire team will thank you for.")
      , ("cta", JVal.obj [("label", JVal.str "Office Setup Guide"), ("url", JVal.str "/bundles/persona-kits/upgrader-kit")])
      , ("image_alt", JVal.str "The Arco Ufficio in a bright office kitchen with happy colleagues") ]) ]

/-- The local `overrides` table of `getNavigationOverride` (no `default`
key; the fallback is the literal `{ promote: [], demote: [], cta: null }`). -/
def navOverridesTable : List (String × JVal) :=
  [ ("morning-minimalist", JVal.obj
      [ ("promote", JVal.arr [JVal.str "/products/espresso-machines", JVal.str "/guides/fundamentals/your-first-week-with-a-machine"])
      , ("demote", JVal.arr [JVal.str "/guides/advanced/flow-control-profiling"])
      , ("cta", JVal.obj [("label", JVal.str "Your Morning Setup"), ("url", JVal.str "/experiences/core/morning-minimalist")]) ])
  , ("upgrader", JVal.obj
      [ ("promote", JVal.arr [JVal.str "/products/comparison/arco-primo-vs-arco-doppio", JVal.str "/guides/intermediate/dialing-in-new-beans"])
      , ("demote", JVal.arr [JVal.str "/guides/fundamentals/tamping-technique"])
      , ("cta", JVal.obj [("label", JVal.str "Find Your Upgrade"), ("url", JVal.str "/experiences/core/the-upgrade-path")]) ])
  , ("craft-barista", JVal.obj
      [ ("promote", JVal.arr [JVal.str "/guides/advanced/flow-control-profiling", JVal.str "/products/espresso-machines"])
      , ("demote", JVal.arr [JVal.str "/guides/fundamentals/what-is-extraction"])
      , ("cta", JVal.obj [("label", JVal.str "Pro Setup"), ("url", JVal.str "/experiences/core/craft-at-home")]) ])
  , ("traveller", JVal.obj
      [ ("promote", JVal.arr [JVal.str "/blog/travel/espresso-bars-worth-visiting-in-milan", JVal.str "/products/espresso-machines"])
      , ("demote", JVal.arr [JVal.str "/guides/advanced/flow-control-profiling"])
      , ("cta", JVal.obj [("label", JVal.str "Travel Gear"), ("url", JVal.str "/experiences/core/espresso-anywhere")]) ])
  , ("non-barista", JVal.obj
      [ ("promote", JVal.arr [JVal.str "/products/espresso-machines", JVal.str "/guides/fundamentals/your-first-week-with-a-machine"])
      , ("demote", JVal.arr [JVal.str "/guides/advanced/tds-and-extraction-yield"])
      , ("cta", JVal.obj [("label", JVal.str "Easy Setup"), ("url", JVal.str "/experiences/core/the-non-barista")]) ])
  , ("office-manager", JVal.obj
      [ ("promote", JVal.arr [JVal.str "/tools/calculators/capsule-to-bean-cost-comparison", JVal.str "/products/espresso-machines"])
      , ("demote", JVal.arr [JVal.str "/guides/advanced/flow-control-profiling"])
      , ("cta", JVal.obj [("label", JVal.str "Office Solutions"), ("url", JVal.str "/bundles/persona-kits/upgrader-kit")]) ]) ]

/-- The fallback of `getNavigationOverride`:
`{ promote: [], demote: [], cta: null }`. -/
def navDefault : JVal :=
  JVal.obj [("promote", JVal.arr []), ("demote", JVal.arr []), ("cta", JVal.null)]

/-! ## VariantRegistry getters and ContentAssembler (`assembly-engine.js`) -/

/-- Source `getHeroVariant(personaTag)`:
`HERO_VARIANTS[personaTag] || HERO_VARIANTS.default`. -/
def getHeroVariant (personaTag : Option String) : JVal :=
  (assocGet HERO_VARIANTS (jsKey personaTag)).getD heroDefault

/-- The local `recs` of `getProductRecommendations`:
`PRODUCT_RECS[personaTag] || PRODUCT_RECS.default`. -/
def productRecsFor (personaTag : Option String) : List String :=
  (assocGet PRODUCT_RECS (jsKey personaTag)).getD productRecsDefault

/-- Source `Array.prototype.slice(0, end)`: a nonnegative `end` is clamped at the
length; a negative `end` counts back from the length, clamped at 0. -/
def jsSliceTo {α : Type} (l : List α) (e : Int) : List α :=
  if e < 0 then l.take ((l.length : Int) + e).toNat else l.take e.toNat

/-- Source `getProductRecommendations(personaTag, limit)`: `recs.slice(0, limit)`.
(The JS parameter default is `limit = 3`; callers in `composePage` pass 3
explicitly.) -/
def getProductRecommendations (personaTag : Option String) (limit : Int) : List String :=
  jsSliceTo (productRecsFor personaTag) limit

/-- The local `feed` of `getBlogFeed`:
`BLOG_FEEDS[personaTag] || BLOG_FEEDS.default`. -/
def blogFeedFor (personaTag : Option String) : List String :=
  (assocGet BLOG_FEEDS (jsKey personaTag)).getD blogFeedsDefault

/-- Source `getBlogFeed(personaTag, limit)`: `feed.slice(0, limit)`. -/
def getBlogFeed (personaTag : Option String) (limit : Int) : List String :=
  jsSliceTo (blogFeedFor personaTag) limit

/-- Source `getExperienceCTA(personaTag)`:
`EXPERIENCE_CTAS[personaTag] || EXPERIENCE_CTAS.default`. -/
def getExperienceCTA (personaTag : Option String) : JVal :=
  (assocGet EXPERIENCE_CTAS (jsKey personaTag)).getD experienceCtasDefault

/-- Source `getNavigationOverride(personaTag)`:
`overrides[personaTag] || { promote: [], demote: [], cta: null }`. -/
def getNavigationOverride (personaTag : Option String) : JVal :=
  (assocGet navOverridesTable (jsKey personaTag)).getD navDefault

/-- A JS array of strings as a `JVal`. -/
def jvStrArr (l : List String) : JVal :=
  JVal.arr (l.map JVal.str)

/-- The value stamped into `assembled._persona`: the effective persona
string, or JS `null` when absent. -/
def jvPersona : Option String → JVal
  | none => JVal.null
  | some s => JVal.str s

/-- Source `composePage` up to and including the `_persona` stamp; the `store`
argument is the value `getPersonaFromCookie()` would return.
Body, in source order:
`const persona = personaTag || getPersonaFromCookie();`
`const assembled = { ...baseContent };`
the `homepage` branch (five variant fields), the `pdp` branch
(`pageType === 'pdp' && persona && baseContent.persona_overrides?.[persona]`
guarding `Object.assign`), then `assembled._persona = persona`. -/
def composeCore (store : Option String) (pageType : String)
    (personaTag : Option String) (baseContent : Obj) : Obj :=
  let persona := jsOr personaTag store
  let assembled := baseContent
  let assembled :=
    if pageType = "homepage" then
      oSet (oSet (oSet (oSet (oSet assembled
        "hero" (getHeroVariant persona))
        "products" (jvStrArr (getProductRecommendations persona 3)))
        "blog_feed" (jvStrArr (getBlogFeed persona 3)))
        "experience_cta" (getExperienceCTA persona))
        "nav_override" (getNavigationOverride persona)
    else assembled
  let overrideVal : Option JVal :=
    if pageType = "pdp" ∧ truthyS persona then
      (assocGet baseContent "persona_overrides").bind
        (fun pv => jvIndex pv (jsKey persona))
    else none
  let assembled :=
    match overrideVal with
    | some ov => if truthyJ ov then oAssign assembled (objFields ov) else assembled
    | none => assembled
  oSet assembled "_persona" (jvPersona persona)

/-- Source `composePage(pageType, personaTag, baseContent)` with the ambient
cookie state (`store`) and clock (`now`, the `new Date().toISOString()`
string) passed explicitly: `composeCore` followed by
`assembled._assembled_at = now`. -/
def composePage (store : Option String) (now : String) (pageType : String)
    (personaTag : Option String) (baseContent : Obj) : Obj :=
  oSet (composeCore store pageType personaTag baseContent)
    "_assembled_at" (JVal.str now)

-- sanity checks
example : getProductRecommendations (some "upgrader") 2 = ["arco-doppio", "arco-studio"] := by decide
example : getProductRecommendations (some "upgrader") (-1) =
    ["arco-doppio", "arco-studio", "arco-preciso", "arco-primo", "arco-macinino"] := by decide
example : getProductRecommendations none 99 = productRecsDefault := by decide
example :
    assocGet (composePage none "T" "pdp" (some "upgrader")
      [ ("persona_overrides", JVal.obj [("upgrader", JVal.obj [("price", JVal.num 10)])])
      , ("price", JVal.num 20) ]) "price" = some (JVal.num 10) := rfl
example :
    assocGet (composePage none "T" "homepage" (some "nobody") []) "hero" = some heroDefault := rfl

/-! ## Lemmas about the object model -/

/-- Reading the key just written yields the written value. -/
theorem assocGet_oSet_self (o : Obj) (k : String) (v : JVal) :
    assocGet (oSet o k v) k = some v := by
  induction o with
  | nil => simp [oSet, assocGet]
  | cons p rest ih =>
      obtain ⟨k0, w⟩ := p
      by_cases h : k0 = k
      · simp [oSet, h, assocGet]
      · simp [oSet, h, assocGet, ih]

/-- Writing one key leaves every other key unchanged. -/
theorem assocGet_oSet_ne (o : Obj) (k k' : String) (v : JVal) (h : k' ≠ k) :
    assocGet (oSet o k v) k' = assocGet o k' := by
  have h' : k ≠ k' := h.symm
  induction o with
  | nil => simp [oSet, assocGet, h']
  | cons p rest ih =>
      obtain ⟨k0, w⟩ := p
      by_cases hk : k0 = k
      · subst hk
        simp [oSet, assocGet, h']
      · by_cases hk' : k0 = k'
        · simp [oSet, hk, assocGet, hk', h]
        · simp [oSet, hk, assocGet, hk', ih]

/-- A key not among the stored keys is absent. -/
theorem assocGet_eq_none_of_not_mem {α : Type} (o : List (String × α)) (k : String)
    (h : k ∉ o.map Prod.fst) : assocGet o k = none := by
  induction o with
  | nil => rfl
  | cons p rest ih =>
      obtain ⟨k0, w⟩ := p
      simp only [List.map_cons, List.mem_cons, not_or] at h
      have hne : k0 ≠ k := fun hh => h.1 hh.symm
      simp [assocGet, hne, ih h.2]

/-- Source `Object.assign` does not touch keys absent from the source. -/
theorem assocGet_oAssign_of_none (a src : Obj) (k : String)
    (h : assocGet src k = none) : assocGet (oAssign a src) k = assocGet a k := by
  induction src generalizing a with
  | nil => rfl
  | cons p rest ih =>
      obtain ⟨k0, v0⟩ := p
      by_cases hk : k0 = k
      · simp [assocGet, hk] at h
      · simp only [assocGet, hk, if_neg hk] at h
        rw [oAssign, ih (oSet a k0 v0) h, assocGet_oSet_ne _ _ _ _ (fun hh => hk hh.symm)]

/-- Source `Object.assign` gives every key of a duplicate-free source its source
value. -/
theorem assocGet_oAssign_of_some (a src : Obj) (k : String) (v : JVal)
    (hn : (src.map Prod.fst).Nodup) (h : assocGet src k = some v) :
    assocGet (oAssign a src) k = some v := by
  induction src generalizing a with
  | nil => simp [assocGet] at h
  | cons p rest ih =>
      obtain ⟨k0, v0⟩ := p
      simp only [List.map_cons, List.nodup_cons] at hn
      by_cases hk : k0 = k
      · subst hk
        have hv : v0 = v := by simpa [assocGet] using h
        have hrest : assocGet rest k0 = none :=
          assocGet_eq_none_of_not_mem rest k0 hn.1
        rw [oAssign, assocGet_oAssign_of_none _ _ _ hrest, assocGet_oSet_self, hv]
      · have h' : assocGet rest k = some v := by simpa [assocGet, hk] using h
        rw [oAssign]
        exact ih (oSet a k0 v0) hn.2 h'

/-! ## Lemmas about the classifier -/

/-- An in-range `getD` read is a member of the list. -/
theorem getD_mem_of_lt {α : Type} (l : List α) (i : Nat) (d : α) (h : i < l.length) :
    l.getD i d ∈ l := by
  induction l generalizing i with
  | nil => simp at h
  | cons a rest ih =>
      cases i with
      | zero => simp
      | succ i =>
          rw [List.getD_cons_succ]
          exact List.mem_cons_of_mem a (ih i (by simpa using h))

/-- An out-of-range `getD` read yields the default. -/
theorem getD_of_len_le {α : Type} (l : List α) (d : α) (n : Nat) (h : l.length ≤ n) :
    l.getD n d = d := by
  induction l generalizing n with
  | nil => cases n <;> rfl
  | cons a rest ih =>
      cases n with
      | zero => simp at h
      | succ n => rw [List.getD_cons_succ]; exact ih n (by simpa using h)

/-- Characterization of the winner-selection loop: the returned `maxScore`
bounds the initial maximum and every scanned score, and the returned
`winnerIndex` is either the initial winner (when no score strictly exceeds
the initial maximum) or the position of the first score attaining the final
maximum, with every earlier score strictly below it. -/
theorem winnerFold_spec (l : List Nat) (i m w : Nat) :
    m ≤ (winnerFold l i m w).1 ∧
    (∀ x ∈ l, x ≤ (winnerFold l i m w).1) ∧
    (((winnerFold l i m w).1 = m ∧ (winnerFold l i m w).2 = w) ∨
      (∃ j, j < l.length ∧ (winnerFold l i m w).2 = i + j ∧
        l.getD j 0 = (winnerFold l i m w).1 ∧ m < (winnerFold l i m w).1 ∧
        ∀ k, k < j → l.getD k 0 < (winnerFold l i m w).1)) := by
  induction l generalizing i m w with
  | nil => exact ⟨le_refl m, by simp, Or.inl ⟨rfl, rfl⟩⟩
  | cons s rest ih =>
      by_cases hms : m < s
      · have hred : winnerFold (s :: rest) i m w = winnerFold rest (i + 1) s i := by
          simp [winnerFold, hms]
        obtain ⟨h1, h2, h3⟩ := ih (i + 1) s i
        rw [hred]
        refine ⟨le_trans (le_of_lt hms) h1, ?_, ?_⟩
        · intro x hx
          rcases List.mem_cons.mp hx with h | h
          · exact h ▸ h1
          · exact h2 x h
        · right
          rcases h3 with ⟨hm, hw⟩ | ⟨j, hj, hwj, hgj, hlt, hall⟩
          · refine ⟨0, by simp, by omega, ?_, ?_, ?_⟩
            · rw [List.getD_cons_zero, hm]
            · rw [hm]; exact hms
            · intro k hk; exact absurd hk (Nat.not_lt_zero k)
          · refine ⟨j + 1, by simpa using hj, by omega, ?_, ?_, ?_⟩
            · rw [List.getD_cons_succ]; exact hgj
            · exact lt_trans hms hlt
            · intro k hk
              cases k with
              | zero => rw [List.getD_cons_zero]; exact hlt
              | succ k => rw [List.getD_cons_succ]; exact hall k (by omega)
      · have hred : winnerFold (s :: rest) i m w = winnerFold rest (i + 1) m w := by
          simp [winnerFold, hms]
        have hs : s ≤ m := le_of_not_lt hms
        obtain ⟨h1, h2, h3⟩ := ih (i + 1) m w
        rw [hred]
        refine ⟨h1, ?_, ?_⟩
        · intro x hx
          rcases List.mem_cons.mp hx with h | h
          · exact h ▸ le_trans hs h1
          · exact h2 x h
        · rcases h3 with ⟨hm, hw⟩ | ⟨j, hj, hwj, hgj, hlt, hall⟩
          · exact Or.inl ⟨hm, hw⟩
          · right
            refine ⟨j + 1, by simpa using hj, by omega, ?_, hlt, ?_⟩
            · rw [List.getD_cons_succ]; exact hgj
            · intro k hk
              cases k with
              | zero => rw [List.getD_cons_zero]; exact lt_of_le_of_lt hs hlt
              | succ k => rw [List.getD_cons_succ]; exact hall k (by omega)

/-- Source `zipAdd` keeps the score-vector length when the row is no longer. -/
theorem zipAdd_length (s p : List Nat) (h : p.length ≤ s.length) :
    (zipAdd s p).length = s.length := by
  induction s generalizing p with
  | nil =>
      cases p with
      | nil => rfl
      | cons b p => simp at h
  | cons a s ih =>
      cases p with
      | nil => rfl
      | cons b p => simp [zipAdd, ih p (by simpa using h)]

/-- Every scoring row addressable by `getD` has at most 6 entries. -/
theorem scoring_row_length_le (q idx : Nat) :
    ((SCORING.getD q []).getD idx []).length ≤ 6 := by
  have hrow : ∀ (qs : List (List Nat)), (∀ r ∈ qs, r.length ≤ 6) →
      ((qs.getD idx []).length ≤ 6) := by
    intro qs hqs
    by_cases h : idx < qs.length
    · exact hqs _ (getD_mem_of_lt qs idx [] h)
    · rw [getD_of_len_le _ _ _ (le_of_not_lt h)]; simp
  by_cases h : q < SCORING.length
  · have hall : ∀ qs ∈ SCORING, ∀ r ∈ qs, r.length ≤ 6 := by decide
    exact hrow _ (hall _ (getD_mem_of_lt SCORING q [] h))
  · rw [getD_of_len_le _ _ _ (le_of_not_lt h)]
    simp

/-- One loop iteration keeps the score vector at 6 slots. -/
theorem scoreStep_length (s : List Nat) (q : Nat) (a : Int) (h : s.length = 6) :
    (scoreStep s q a).length = 6 := by
  unfold scoreStep
  split
  · rw [zipAdd_length _ _ (by rw [h]; exact scoring_row_length_le q _)]
    exact h
  · exact h

/-- The whole loop keeps the score vector at 6 slots. -/
theorem scoresGo_length (l : List Int) (q : Nat) (s : List Nat) (h : s.length = 6) :
    (scoresGo l q s).length = 6 := by
  induction l generalizing q s with
  | nil => exact h
  | cons a rest ih => exact ih (q + 1) _ (scoreStep_length s q a h)

/-- The accumulated score vector always has exactly 6 entries. -/
theorem quizScores_length (answers : List Int) : (quizScores answers).length = 6 :=
  scoresGo_length answers 0 _ rfl

/-- Once the question counter passes the number of authored questions, the
loop is a no-op: extra answer entries are ignored. -/
theorem scoresGo_of_ge (l : List Int) (q : Nat) (s : List Nat)
    (h : SCORING.length ≤ q) : scoresGo l q s = s := by
  induction l generalizing q s with
  | nil => rfl
  | cons a rest ih =>
      have hstep : scoreStep s q a = s := by
        unfold scoreStep
        rw [if_neg]
        intro hc
        exact absurd hc.1 (not_lt.mpr h)
      rw [scoresGo, hstep]
      exact ih (q + 1) s (le_trans h (Nat.le_succ q))

/-- Splitting the answer list splits the loop. -/
theorem scoresGo_append (l1 l2 : List Int) (q : Nat) (s : List Nat) :
    scoresGo (l1 ++ l2) q s = scoresGo l2 (q + l1.length) (scoresGo l1 q s) := by
  induction l1 generalizing q s with
  | nil => simp [scoresGo]
  | cons a rest ih =>
      have harith : q + 1 + rest.length = q + (rest.length + 1) := by omega
      rw [List.cons_append, scoresGo, ih (q + 1) (scoreStep s q a), List.length_cons, harith]
      rfl

/-- Answer entries beyond the 4 authored questions do not affect the
scores. -/
theorem quizScores_take (answers : List Int) :
    quizScores answers = quizScores (answers.take 4) := by
  conv_lhs => rw [← List.take_append_drop 4 answers]
  rw [quizScores, quizScores, scoresGo_append]
  by_cases h : answers.length ≤ 4
  · rw [List.drop_eq_nil_of_le h]
    rfl
  · have hlen : (answers.take 4).length = 4 := by
      rw [List.length_take]
      omega
    rw [scoresGo_of_ge _ _ _ (by rw [hlen]; decide)]

/-- Clamping step: an answer index of at least 3 scores exactly as the
answer index 3 does (every authored question has 4 options). -/
theorem scoreStep_clamp (s : List Nat) (q : Nat) (v : Int) (hv : 3 ≤ v) :
    scoreStep s q v = scoreStep s q 3 := by
  unfold scoreStep
  by_cases hq : q < SCORING.length
  · rw [if_pos ⟨hq, by omega⟩, if_pos ⟨hq, by omega⟩]
    have h4 : q < 4 := by simpa [SCORING] using hq
    have hlen : (SCORING.getD q []).length = 4 := by
      interval_cases q <;> rfl
    rw [hlen]
    norm_num [min_eq_right hv]
  · rw [if_neg (fun hc => hq hc.1), if_neg (fun hc => hq hc.1)]

/-- Clamping, lifted to the loop: replacing any entry that is at least 3 by
exactly 3 leaves the scores unchanged. -/
theorem scoresGo_clamp (l : List Int) (i : Nat) (v : Int) (hv : 3 ≤ v) (q : Nat)
    (s : List Nat) : scoresGo (l.set i v) q s = scoresGo (l.set i 3) q s := by
  induction l generalizing i q s with
  | nil => rfl
  | cons a rest ih =>
      cases i with
      | zero =>
          simp only [List.set_cons_zero, scoresGo]
          rw [scoreStep_clamp s q v hv]
      | succ i =>
          simp only [List.set_cons_succ, scoresGo]
          exact ih i (q + 1) _

/-- Clamping, at the level of `quizScores`. -/
theorem quizScores_clamp (answers : List Int) (i : Nat) (v : Int) (hv : 3 ≤ v) :
    quizScores (answers.set i v) = quizScores (answers.set i 3) :=
  scoresGo_clamp answers i v hv 0 _

/-- The selected winner index of a 6-slot score vector is in range, its
score is a maximum, and every lower-indexed persona scores strictly less:
the winner is the least argmax. -/
theorem winner_argmax (scores : List Nat) (h6 : scores.length = 6) :
    winnerIndex scores < 6 ∧
    (∀ i, i < 6 → scores.getD i 0 ≤ scores.getD (winnerIndex scores) 0) ∧
    (∀ j, j < winnerIndex scores →
      scores.getD j 0 < scores.getD (winnerIndex scores) 0) := by
  obtain ⟨-, h2, h3⟩ := winnerFold_spec scores 0 0 0
  rcases h3 with ⟨hm, hw⟩ | ⟨j, hj, hwj, hgj, hlt, hall⟩
  · have hwi : winnerIndex scores = 0 := hw
    have hzero : ∀ i, i < 6 → scores.getD i 0 = 0 := by
      intro i hi
      have hmem := getD_mem_of_lt scores i 0 (by omega)
      have := h2 _ hmem
      omega
    refine ⟨by rw [hwi]; omega, ?_, ?_⟩
    · intro i hi
      rw [hwi, hzero i hi, hzero 0 (by omega)]
    · intro j hjw
      rw [hwi] at hjw
      exact absurd hjw (Nat.not_lt_zero j)
  · have hwi : winnerIndex scores = j := by
      rw [winnerIndex, hwj]
      omega
    refine ⟨by omega, ?_, ?_⟩
    · intro i hi
      rw [hwi, hgj]
      exact h2 _ (getD_mem_of_lt scores i 0 (by omega))
    · intro k hk
      rw [hwi] at hk
      rw [hwi, hgj]
      exact hall k hk

/-- The classifier always returns one of the 6 declared persona tags. -/
theorem calculatePersona_mem (answers : List Int) :
    calculatePersona answers ∈ PERSONAS := by
  have hw := (winner_argmax (quizScores answers) (quizScores_length answers)).1
  exact getD_mem_of_lt PERSONAS _ "" hw

/-- Source `slice(0, e)` with a nonnegative end is a `take`. -/
theorem jsSliceTo_nonneg {α : Type} (l : List α) (e : Int) (h : 0 ≤ e) :
    jsSliceTo l e = l.take e.toNat := by
  unfold jsSliceTo
  rw [if_neg (not_lt.mpr h)]

/-- Source `slice(0, e)` with an end at least the length returns the whole list. -/
theorem jsSliceTo_of_len_le {α : Type} (l : List α) (e : Int)
    (h : (l.length : Int) ≤ e) : jsSliceTo l e = l := by
  rw [jsSliceTo_nonneg l e (le_trans (Int.ofNat_nonneg l.length) h)]
  exact List.take_of_length_le (by omega)

/-- Source `slice(0, e)` with a negative end counts back from the length. -/
theorem jsSliceTo_neg {α : Type} (l : List α) (e : Int) (h : e < 0) :
    jsSliceTo l e = l.take ((l.length : Int) + e).toNat := by
  unfold jsSliceTo
  rw [if_pos h]

/-! ## Claim theorems -/

/-- Claim C4: `calculatePersona` scans the score vector in enumeration order
with a running maximum initialized to 0 and winner initialized to persona 0,
replacing the winner only on a strictly greater score: for every answer
vector the selected winner index is in range, attains the maximal score, and
every lower-indexed persona scores strictly less (so ties go to the
lowest-indexed persona); the empty and the all-unanswered answer vectors
yield persona 0, morning-minimalist. -/
theorem classify_tie_break :
    (∀ answers : List Int,
      winnerIndex (quizScores answers) < 6 ∧
      (∀ i, i < 6 → (quizScores answers).getD i 0 ≤
        (quizScores answers).getD (winnerIndex (quizScores answers)) 0) ∧
      (∀ j, j < winnerIndex (quizScores answers) →
        (quizScores answers).getD j 0 <
          (quizScores answers).getD (winnerIndex (quizScores answers)) 0) ∧
      calculatePersona answers =
        PERSONAS.getD (winnerIndex (quizScores answers)) "") ∧
    calculatePersona [] = "morning-minimalist" ∧
    calculatePersona [-1, -1, -1, -1] = "morning-minimalist" := by
  refine ⟨fun answers => ?_, by decide, by decide⟩
  obtain ⟨h1, h2, h3⟩ := winner_argmax (quizScores answers) (quizScores_length answers)
  exact ⟨h1, h2, h3, rfl⟩

/-- Witness for `classify_tie_break` at the concrete vector `[0,0,0,0]`. -/
theorem classify_tie_break_witness :
    (quizScores [0, 0, 0, 0]).getD 0 0 ≤
      (quizScores [0, 0, 0, 0]).getD (winnerIndex (quizScores [0, 0, 0, 0])) 0 :=
  (classify_tie_break.1 [0, 0, 0, 0]).2.1 0 (by decide)

/-- Claim C5 counterexample: `classify([3,3,3,3])` does return non-barista,
but its total is not strictly higher than every other persona: the scores
are `[0,0,3,0,4,4]`, so office-manager ties non-barista at 4 (and the
spec's sum 2+2+0+1=5 is wrong: the non-barista column for option 3 of the
four questions sums to 2+2+0+0=4). -/
theorem classify_3333_not_strict :
    calculatePersona [3, 3, 3, 3] = "non-barista" ∧
    quizScores [3, 3, 3, 3] = [0, 0, 3, 0, 4, 4] ∧
    ¬ ((quizScores [3, 3, 3, 3]).getD 5 0 <
        (quizScores [3, 3, 3, 3]).getD 4 0) := by decide

/-- Claim C5 amended: `classify([3,3,3,3])` returns non-barista: the scores
are `[0,0,3,0,4,4]`, non-barista attains the maximum 4, tied with
office-manager, and wins by the lower-index tie-break. -/
theorem classify_3333_amended :
    calculatePersona [3, 3, 3, 3] = "non-barista" ∧
    quizScores [3, 3, 3, 3] = [0, 0, 3, 0, 4, 4] ∧
    (∀ j, j < 6 → (quizScores [3, 3, 3, 3]).getD j 0 ≤ 4) ∧
    (quizScores [3, 3, 3, 3]).getD 4 0 = 4 ∧
    (quizScores [3, 3, 3, 3]).getD 5 0 = 4 := by decide

/-- Witness for `classify_3333_amended` at persona index 2. -/
theorem classify_3333_amended_witness :
    (quizScores [3, 3, 3, 3]).getD 2 0 ≤ 4 :=
  classify_3333_amended.2.2.1 2 (by decide)

/-- Claim C6: `calculatePersona` is total and never fails: every answer
vector (any finite list of integers) yields a tag in the 6-value taxonomy;
entries beyond the 4 known questions are ignored; an out-of-range option
index (at least 3) scores exactly as the last authored option index 3. -/
theorem classify_total :
    (∀ answers : List Int, calculatePersona answers ∈ PERSONAS) ∧
    (∀ answers : List Int, calculatePersona answers = calculatePersona (answers.take 4)) ∧
    (∀ (answers : List Int) (i : Nat) (v : Int), 3 ≤ v →
      calculatePersona (answers.set i v) = calculatePersona (answers.set i 3)) := by
  refine ⟨calculatePersona_mem, fun answers => ?_, fun answers i v hv => ?_⟩
  · simp only [calculatePersona]
    rw [quizScores_take]
  · simp only [calculatePersona]
    rw [quizScores_clamp answers i v hv]

/-- Witness for `classify_total`: the out-of-range answer 99 in slot 0 is
clamped exactly as answer 3 is. -/
theorem classify_total_witness :
    calculatePersona ([(99 : Int), 0].set 0 99) =
      calculatePersona ([(99 : Int), 0].set 0 3) :=
  classify_total.2.2 [99, 0] 0 99 (by decide)

/-- Claim C9: `getResultPage` is total onto 5 experience URLs: every input
maps to one of exactly 5 URLs of the form `/experiences/core/<slug>`;
non-barista and office-manager both map to `the-non-barista` (the mapping
over the 6 canonical tags is many-to-one onto the 5 URLs); every
unrecognized or absent tag falls back to
`/experiences/core/morning-minimalist`. -/
theorem getResultPage_total (tag : Option String) :
    getResultPage tag ∈
      [ "/experiences/core/morning-minimalist"
      , "/experiences/core/the-upgrade-path"
      , "/experiences/core/craft-at-home"
      , "/experiences/core/espresso-anywhere"
      , "/experiences/core/the-non-barista" ] ∧
    getResultPage (some "non-barista") = "/experiences/core/the-non-barista" ∧
    getResultPage (some "office-manager") = "/experiences/core/the-non-barista" ∧
    PERSONAS.map (fun t => getResultPage (some t)) =
      [ "/experiences/core/morning-minimalist"
      , "/experiences/core/the-upgrade-path"
      , "/experiences/core/craft-at-home"
      , "/experiences/core/espresso-anywhere"
      , "/experiences/core/the-non-barista"
      , "/experiences/core/the-non-barista" ] ∧
    (jsKey tag ∉ PERSONAS →
      getResultPage tag = "/experiences/core/morning-minimalist") := by
  refine ⟨?_, by decide, by decide, by decide, ?_⟩
  · simp only [getResultPage, slugMap, assocGet]
    split_ifs <;> decide
  · intro h
    simp only [PERSONAS, List.mem_cons, List.not_mem_nil, or_false, not_or] at h
    obtain ⟨h1, h2, h3, h4, h5, h6⟩ := h
    have n1 : "morning-minimalist" ≠ jsKey tag := fun hh => h1 hh.symm
    have n2 : "upgrader" ≠ jsKey tag := fun hh => h2 hh.symm
    have n3 : "craft-barista" ≠ jsKey tag := fun hh => h3 hh.symm
    have n4 : "traveller" ≠ jsKey tag := fun hh => h4 hh.symm
    have n5 : "non-barista" ≠ jsKey tag := fun hh => h5 hh.symm
    have n6 : "office-manager" ≠ jsKey tag := fun hh => h6 hh.symm
    simp only [getResultPage, slugMap, assocGet, if_neg n1, if_neg n2, if_neg n3,
      if_neg n4, if_neg n5, if_neg n6]
    rfl

/-- Witness for `getResultPage_total`: the absent tag redirects to the
morning-minimalist experience. -/
theorem getResultPage_total_witness :
    getResultPage none = "/experiences/core/morning-minimalist" :=
  (getResultPage_total none).2.2.2.2 (by decide)

/-- The five legacy brew-style slugs named by the spec: the value taxonomy
of the retired brew-style quiz and of the `RESULT_PAGES` slugs (modelled
from the spec sentence "value in a set of 5 legacy slugs"). -/
def legacyBrewStyleSlugs : List String :=
  [ "morning-minimalist"
  , "the-upgrade-path"
  , "craft-at-home"
  , "espresso-anywhere"
  , "the-non-barista" ]

/-- Claim C2 counterexample: The quiz-completion branch writes the canonical
tag itself into the legacy `arco-brew-style` cookie: for the answers
`[1,2,2,2]` the persona is `upgrader`, the legacy record holds `upgrader`,
and `upgrader` is not one of the 5 legacy slugs (no many-to-one map is
applied). -/
theorem legacy_cookie_not_mapped :
    calculatePersona [1, 2, 2, 2] = "upgrader" ∧
    quizCompletionCookies [1, 2, 2, 2] =
      [("arco_persona", "upgrader", 90), ("arco-brew-style", "upgrader", 30)] ∧
    "upgrader" ∉ legacyBrewStyleSlugs := by decide

/-- Claim C2 amended: On quiz completion exactly two records are written in
one call: the canonical record under `arco_persona` with 90-day retention
and a legacy record under `arco-brew-style` with 30-day retention — but
both hold the same canonical 6-taxonomy tag; the legacy value is not mapped
to the 5-slug legacy taxonomy. -/
theorem persist_dual_write (answers : List Int) :
    ∃ p, p ∈ PERSONAS ∧
      quizCompletionCookies answers =
        [("arco_persona", p, 90), ("arco-brew-style", p, 30)] :=
  ⟨calculatePersona answers, calculatePersona_mem answers, rfl⟩

/-- Claim C3 counterexample: A negative limit does not return the empty list:
`getProductRecommendations('upgrader', -1)` has limit at most 0 but returns
the first 5 of the 6 recommendations (JS `slice(0, -1)` counts the end back
from the length). -/
theorem variant_list_negative_limit :
    ((-1 : Int) ≤ 0) ∧
    getProductRecommendations (some "upgrader") (-1) =
      ["arco-doppio", "arco-studio", "arco-preciso", "arco-primo", "arco-macinino"] ∧
    getProductRecommendations (some "upgrader") (-1) ≠ [] := by decide

/-- Claim C3 amended: For the two list-returning tables: every nonnegative
limit returns exactly the first `min(limit, length)` elements (in
particular the whole list whenever the limit is at least the length — never
an error); the limit 0 returns the empty list; but a negative limit follows
JS `slice` semantics and returns the first `max(length + limit, 0)`
elements instead of the empty list.  No limit throws. -/
theorem variant_list_limit (tag : Option String) (limit : Int) :
    (0 ≤ limit →
      getProductRecommendations tag limit = (productRecsFor tag).take limit.toNat ∧
      getBlogFeed tag limit = (blogFeedFor tag).take limit.toNat) ∧
    (((productRecsFor tag).length : Int) ≤ limit →
      getProductRecommendations tag limit = productRecsFor tag) ∧
    (((blogFeedFor tag).length : Int) ≤ limit →
      getBlogFeed tag limit = blogFeedFor tag) ∧
    (limit = 0 →
      getProductRecommendations tag limit = [] ∧ getBlogFeed tag limit = []) ∧
    (limit < 0 →
      getProductRecommendations tag limit =
        (productRecsFor tag).take (((productRecsFor tag).length : Int) + limit).toNat ∧
      getBlogFeed tag limit =
        (blogFeedFor tag).take (((blogFeedFor tag).length : Int) + limit).toNat) := by
  simp only [getProductRecommendations, getBlogFeed]
  refine ⟨fun h => ⟨jsSliceTo_nonneg _ _ h, jsSliceTo_nonneg _ _ h⟩,
    fun h => jsSliceTo_of_len_le _ _ h,
    fun h => jsSliceTo_of_len_le _ _ h,
    fun h => ?_,
    fun h => ⟨jsSliceTo_neg _ _ h, jsSliceTo_neg _ _ h⟩⟩
  subst h
  rw [jsSliceTo_nonneg _ _ (le_refl 0), jsSliceTo_nonneg _ _ (le_refl 0)]
  exact ⟨by simp, by simp⟩

/-- Witness for `variant_list_limit`: limit 2 takes the first two upgrader
recommendations. -/
theorem variant_list_limit_witness :
    getProductRecommendations (some "upgrader") 2 =
      (productRecsFor (some "upgrader")).take ((2 : Int)).toNat :=
  ((variant_list_limit (some "upgrader") 2).1 (by decide)).1

/-- Reduction of `composeCore` on the homepage: the shallow copy of the
base with the five variant fields and the `_persona` stamp written. -/
theorem composeCore_homepage (store tag : Option String) (base : Obj) :
    composeCore store "homepage" tag base =
      oSet (oSet (oSet (oSet (oSet (oSet base
        "hero" (getHeroVariant (jsOr tag store)))
        "products" (jvStrArr (getProductRecommendations (jsOr tag store) 3)))
        "blog_feed" (jvStrArr (getBlogFeed (jsOr tag store) 3)))
        "experience_cta" (getExperienceCTA (jsOr tag store)))
        "nav_override" (getNavigationOverride (jsOr tag store)))
        "_persona" (jvPersona (jsOr tag store)) := by
  simp [composeCore]

/-- Reduction of `composeCore` on a product-detail page whose base carries
an object override for the truthy explicit persona: the override fields are
assigned onto the copy, then `_persona` is stamped. -/
theorem composeCore_pdp_override (store : Option String) (t : String)
    (base po ov : Obj) (ht : t ≠ "")
    (hpo : assocGet base "persona_overrides" = some (JVal.obj po))
    (hov : assocGet po t = some (JVal.obj ov)) :
    composeCore store "pdp" (some t) base =
      oSet (oAssign base ov) "_persona" (JVal.str t) := by
  have htr : truthyS (some t) = true := by simp [truthyS, ht]
  simp [composeCore, jsOr, htr, hpo, jsKey, jvIndex, hov, truthyJ, objFields, jvPersona]

/-- Claim C8: `composePage` is deterministic up to its timestamp: with
identical ambient cookie state and identical arguments, two calls agree on
every key other than `_assembled_at` (the timestamp is the only varying
input, and it is written only to that field). -/
theorem compose_idempotent_mod_timestamp (store : Option String)
    (now1 now2 : String) (pageType : String) (tag : Option String)
    (base : Obj) (k : String) (hk : k ≠ "_assembled_at") :
    assocGet (composePage store now1 pageType tag base) k =
      assocGet (composePage store now2 pageType tag base) k := by
  unfold composePage
  rw [assocGet_oSet_ne _ _ _ _ hk, assocGet_oSet_ne _ _ _ _ hk]

/-- Witness for `compose_idempotent_mod_timestamp` at the `hero` field of
two homepage compositions with different timestamps. -/
theorem compose_idempotent_witness :
    assocGet (composePage none "t1" "homepage" none []) "hero" =
      assocGet (composePage none "t2" "homepage" none []) "hero" :=
  compose_idempotent_mod_timestamp none "t1" "t2" "homepage" none [] "hero" (by decide)

/-- Claim C10: An explicit empty-string tag is falsy exactly like an absent
tag: `composePage` with `""` equals `composePage` with `null` for every
page type, base content, ambient cookie state and timestamp. -/
theorem compose_empty_tag_falsy (store : Option String) (now : String)
    (pageType : String) (base : Obj) :
    composePage store now pageType (some "") base =
      composePage store now pageType none base := rfl

/-- Claim C7: On the homepage, `composePage` returns a shallow copy of the
base in which exactly the five variant fields (`hero`, `products`,
`blog_feed`, `experience_cta`, `nav_override`) are overwritten with the
registry lookups for the effective persona, every other base field passes
through unmodified apart from the two stamped metadata fields (`_persona`,
`_assembled_at`), and each lookup falls back to its per-table default
whenever the effective persona is absent or not a declared tag. -/
theorem compose_homepage_frame (store : Option String) (now : String)
    (tag : Option String) (base : Obj) :
    assocGet (composePage store now "homepage" tag base) "hero" =
      some (getHeroVariant (jsOr tag store)) ∧
    assocGet (composePage store now "homepage" tag base) "products" =
      some (jvStrArr (getProductRecommendations (jsOr tag store) 3)) ∧
    assocGet (composePage store now "homepage" tag base) "blog_feed" =
      some (jvStrArr (getBlogFeed (jsOr tag store) 3)) ∧
    assocGet (composePage store now "homepage" tag base) "experience_cta" =
      some (getExperienceCTA (jsOr tag store)) ∧
    assocGet (composePage store now "homepage" tag base) "nav_override" =
      some (getNavigationOverride (jsOr tag store)) ∧
    assocGet (composePage store now "homepage" tag base) "_persona" =
      some (jvPersona (jsOr tag store)) ∧
    assocGet (composePage store now "homepage" tag base) "_assembled_at" =
      some (JVal.str now) ∧
    (∀ k, k ∉ ["hero", "products", "blog_feed", "experience_cta",
        "nav_override", "_persona", "_assembled_at"] →
      assocGet (composePage store now "homepage" tag base) k = assocGet base k) ∧
    (jsKey (jsOr tag store) ∉ PERSONAS →
      getHeroVariant (jsOr tag store) = heroDefault ∧
      getProductRecommendations (jsOr tag store) 3 = productRecsDefault.take 3 ∧
      getBlogFeed (jsOr tag store) 3 = blogFeedsDefault.take 3 ∧
      getExperienceCTA (jsOr tag store) = experienceCtasDefault ∧
      getNavigationOverride (jsOr tag store) = navDefault) := by
  have hred : composePage store now "homepage" tag base =
      oSet (oSet (oSet (oSet (oSet (oSet (oSet base
        "hero" (getHeroVariant (jsOr tag store)))
        "products" (jvStrArr (getProductRecommendations (jsOr tag store) 3)))
        "blog_feed" (jvStrArr (getBlogFeed (jsOr tag store) 3)))
        "experience_cta" (getExperienceCTA (jsOr tag store)))
        "nav_override" (getNavigationOverride (jsOr tag store)))
        "_persona" (jvPersona (jsOr tag store)))
        "_assembled_at" (JVal.str now) := by
    unfold composePage
    rw [composeCore_homepage]
  refine ⟨?_, ?_, ?_, ?_, ?_, ?_, ?_, ?_, ?_⟩
  · rw [hred, assocGet_oSet_ne _ _ _ _ (by decide), assocGet_oSet_ne _ _ _ _ (by decide),
      assocGet_oSet_ne _ _ _ _ (by decide), assocGet_oSet_ne _ _ _ _ (by decide),
      assocGet_oSet_ne _ _ _ _ (by decide), assocGet_oSet_ne _ _ _ _ (by decide),
      assocGet_oSet_self]
  · rw [hred, assocGet_oSet_ne _ _ _ _ (by decide), assocGet_oSet_ne _ _ _ _ (by decide),
      assocGet_oSet_ne _ _ _ _ (by decide), assocGet_oSet_ne _ _ _ _ (by decide),
      assocGet_oSet_ne _ _ _ _ (by decide), assocGet_oSet_self]
  · rw [hred, assocGet_oSet_ne _ _ _ _ (by decide), assocGet_oSet_ne _ _ _ _ (by decide),
      assocGet_oSet_ne _ _ _ _ (by decide), assocGet_oSet_ne _ _ _ _ (by decide),
      assocGet_oSet_self]
  · rw [hred, assocGet_oSet_ne _ _ _ _ (by decide), assocGet_oSet_ne _ _ _ _ (by decide),
      assocGet_oSet_ne _ _ _ _ (by decide), assocGet_oSet_self]
  · rw [hred, assocGet_oSet_ne _ _ _ _ (by decide), assocGet_oSet_ne _ _ _ _ (by decide),
      assocGet_oSet_self]
  · rw [hred, assocGet_oSet_ne _ _ _ _ (by decide), assocGet_oSet_self]
  · rw [hred, assocGet_oSet_self]
  · intro k hk
    simp only [List.mem_cons, List.not_mem_nil, or_false, not_or] at hk
    obtain ⟨k1, k2, k3, k4, k5, k6, k7⟩ := hk
    rw [hred, assocGet_oSet_ne _ _ _ _ k7, assocGet_oSet_ne _ _ _ _ k6,
      assocGet_oSet_ne _ _ _ _ k5, assocGet_oSet_ne _ _ _ _ k4,
      assocGet_oSet_ne _ _ _ _ k3, assocGet_oSet_ne _ _ _ _ k2,
      assocGet_oSet_ne _ _ _ _ k1]
  · intro h
    by_cases hd : jsKey (jsOr tag store) = "default"
    · refine ⟨?_, ?_, ?_, ?_, ?_⟩
      · unfold getHeroVariant
        rw [hd]
        rfl
      · unfold getProductRecommendations productRecsFor
        rw [hd]
        rfl
      · unfold getBlogFeed blogFeedFor
        rw [hd]
        rfl
      · unfold getExperienceCTA
        rw [hd]
        rfl
      · unfold getNavigationOverride
        rw [hd]
        rfl
    · have hh : jsKey (jsOr tag store) ∉ HERO_VARIANTS.map Prod.fst := by
        rw [show HERO_VARIANTS.map Prod.fst = "default" :: PERSONAS from rfl]
        intro hmem
        rcases List.mem_cons.mp hmem with h1 | h1
        · exact hd h1
        · exact h h1
      have hp : jsKey (jsOr tag store) ∉ PRODUCT_RECS.map Prod.fst := by
        rw [show PRODUCT_RECS.map Prod.fst = "default" :: PERSONAS from rfl]
        intro hmem
        rcases List.mem_cons.mp hmem with h1 | h1
        · exact hd h1
        · exact h h1
      have hb : jsKey (jsOr tag store) ∉ BLOG_FEEDS.map Prod.fst := by
        rw [show BLOG_FEEDS.map Prod.fst = "default" :: PERSONAS from rfl]
        intro hmem
        rcases List.mem_cons.mp hmem with h1 | h1
        · exact hd h1
        · exact h h1
      have hc : jsKey (jsOr tag store) ∉ EXPERIENCE_CTAS.map Prod.fst := by
        rw [show EXPERIENCE_CTAS.map Prod.fst = "default" :: PERSONAS from rfl]
        intro hmem
        rcases List.mem_cons.mp hmem with h1 | h1
        · exact hd h1
        · exact h h1
      have hn : jsKey (jsOr tag store) ∉ navOverridesTable.map Prod.fst := by
        rw [show navOverridesTable.map Prod.fst = PERSONAS from rfl]
        exact h
      refine ⟨?_, ?_, ?_, ?_, ?_⟩
      · unfold getHeroVariant
        rw [assocGet_eq_none_of_not_mem _ _ hh]
        rfl
      · unfold getProductRecommendations productRecsFor
        rw [assocGet_eq_none_of_not_mem _ _ hp]
        rfl
      · unfold getBlogFeed blogFeedFor
        rw [assocGet_eq_none_of_not_mem _ _ hb]
        rfl
      · unfold getExperienceCTA
        rw [assocGet_eq_none_of_not_mem _ _ hc]
        rfl
      · unfold getNavigationOverride
        rw [assocGet_eq_none_of_not_mem _ _ hn]
        rfl

/-- Witness for `compose_homepage_frame`: a base field named `title` (not
one of the five variant fields or the two stamps) passes through. -/
theorem compose_homepage_frame_witness :
    assocGet (composePage none "tick" "homepage" none []) "title" =
      assocGet ([] : Obj) "title" :=
  (compose_homepage_frame none "tick" none []).2.2.2.2.2.2.2.1 "title" (by decide)

/-- Claim C1 counterexample: The pdp override merge does not retain every
base key absent from the override: a base field named `_persona` (absent
from the override `{price: 10}`) is overwritten by the stamping step, which
runs after the merge. -/
theorem compose_pdp_stamp_overwrites_base :
    assocGet
      [ ("persona_overrides", JVal.obj [("upgrader", JVal.obj [("price", JVal.num 10)])])
      , ("_persona", JVal.num 7) ] "_persona" = some (JVal.num 7) ∧
    assocGet [("price", JVal.num 10)] "_persona" = none ∧
    assocGet (composePage none "2026-01-01T00:00:00.000Z" "pdp" (some "upgrader")
      [ ("persona_overrides", JVal.obj [("upgrader", JVal.obj [("price", JVal.num 10)])])
      , ("_persona", JVal.num 7) ]) "_persona" = some (JVal.str "upgrader") ∧
    JVal.num 7 ≠ JVal.str "upgrader" :=
  ⟨rfl, rfl, rfl, fun h => JVal.noConfusion h⟩

/-- Claim C1 amended: For every truthy persona tag `t` and base content
whose `persona_overrides` object carries an object override for `t`,
`composePage` on a pdp page shallow-merges that override onto the copy of
the base: every override key takes the override value verbatim (no
recursive merge) and every base key absent from the override is retained —
except for the two stamped metadata fields `_persona` and `_assembled_at`,
which the stamping step overwrites after the merge. -/
theorem compose_pdp_override_merge (store : Option String) (now : String)
    (t : String) (base po ov : Obj) (ht : t ≠ "")
    (hpo : assocGet base "persona_overrides" = some (JVal.obj po))
    (hov : assocGet po t = some (JVal.obj ov))
    (hnodup : (ov.map Prod.fst).Nodup) :
    (∀ k v, k ≠ "_persona" → k ≠ "_assembled_at" → assocGet ov k = some v →
      assocGet (composePage store now "pdp" (some t) base) k = some v) ∧
    (∀ k, k ≠ "_persona" → k ≠ "_assembled_at" → assocGet ov k = none →
      assocGet (composePage store now "pdp" (some t) base) k = assocGet base k) ∧
    assocGet (composePage store now "pdp" (some t) base) "_persona" =
      some (JVal.str t) ∧
    assocGet (composePage store now "pdp" (some t) base) "_assembled_at" =
      some (JVal.str now) := by
  have hred : composePage store now "pdp" (some t) base =
      oSet (oSet (oAssign base ov) "_persona" (JVal.str t))
        "_assembled_at" (JVal.str now) := by
    unfold composePage
    rw [composeCore_pdp_override store t base po ov ht hpo hov]
  refine ⟨?_, ?_, ?_, ?_⟩
  · intro k v hk1 hk2 hkv
    rw [hred, assocGet_oSet_ne _ _ _ _ hk2, assocGet_oSet_ne _ _ _ _ hk1]
    exact assocGet_oAssign_of_some base ov k v hnodup hkv
  · intro k hk1 hk2 hkv
    rw [hred, assocGet_oSet_ne _ _ _ _ hk2, assocGet_oSet_ne _ _ _ _ hk1]
    exact assocGet_oAssign_of_none base ov k hkv
  · rw [hred, assocGet_oSet_ne _ _ _ _ (by decide), assocGet_oSet_self]
  · rw [hred, assocGet_oSet_self]

/-- Witness for `compose_pdp_override_merge`: the spec's own example —
override `{upgrader: {price: 10}}` over base `price` 20 yields `price` 10,
from the theorem applied at that concrete input. -/
theorem compose_pdp_override_merge_witness :
    assocGet (composePage none "2026-01-02T00:00:00.000Z" "pdp" (some "upgrader")
      [ ("persona_overrides", JVal.obj [("upgrader", JVal.obj [("price", JVal.num 10)])])
      , ("price", JVal.num 20) ]) "price" = some (JVal.num 10) :=
  (compose_pdp_override_merge none "2026-01-02T00:00:00.000Z" "upgrader"
    [ ("persona_overrides", JVal.obj [("upgrader", JVal.obj [("price", JVal.num 10)])])
    , ("price", JVal.num 20) ]
    [("upgrader", JVal.obj [("price", JVal.num 10)])]
    [("price", JVal.num 10)]
    (by decide) rfl rfl (by decide)).1 "price" (JVal.num 10)
    (by decide) (by decide) rfl
